import Mathlib

/-!
Verification development for `inference.py`: a shallow embedding of the
prompt-construction and bounded-generation loop, with theorems checking the
stated properties against the embedded code.

Conventions of the embedding:
- Python strings are modelled as `List Char` (sequences of code points).
- Token ids are modelled as `Nat`; the model and tokenizer are opaque
  capability parameters, matching the collaborator contract of the design.
- Python slice/`rfind`/`strip`/`readlines`/`os.path.dirname` semantics are
  reproduced as explicit executable functions.
-/

/-- Python slice `xs[i:]` for an arbitrary integer start index `i`:
a negative `i` counts from the end (clamped at 0), a nonnegative `i`
drops the first `i` elements (clamped at the length). -/
def pySliceFrom {α : Type} (xs : List α) (i : Int) : List α :=
  if i < 0 then xs.drop (xs.length - (-i).toNat) else xs.drop i.toNat

/-- `occursAt s sub p`: the string `sub` occurs in `s` as a contiguous
substring starting at position `p` (and lying entirely inside `s`). -/
def occursAt (s sub : List Char) (p : Nat) : Prop :=
  p + sub.length ≤ s.length ∧ (s.drop p).take sub.length = sub

instance (s sub : List Char) (p : Nat) : Decidable (occursAt s sub p) := by
  unfold occursAt; exact inferInstance

/-- Helper for `pyRfind`: scan candidate start positions downward from
`n - 1`, returning the first (i.e. largest) position `≥ start` at which
`sub` occurs in `s`. -/
def rfindAux (s sub : List Char) (start : Nat) : Nat → Option Nat
  | 0 => none
  | n + 1 =>
    if start ≤ n ∧ occursAt s sub n then some n else rfindAux s sub start n

/-- Python `s.rfind(sub, start)`: the largest position `p ≥ start` at which
`sub` occurs inside `s` (the occurrence must lie entirely within `s`), or
`none` when there is no such position (Python returns `-1`). -/
def pyRfind (s sub : List Char) (start : Nat) : Option Nat :=
  rfindAux s sub start (s.length + 1)

/-- Decidable contiguous-substring test: `sub` occurs somewhere in `s`. -/
def containsSubB (s sub : List Char) : Bool :=
  (List.range (s.length + 1)).any fun p => decide (occursAt s sub p)

/-- Python whitespace characters relevant to `str.strip()` in the ASCII
range (space, tab, newline, carriage return, vertical tab, form feed). -/
def isPyWS (c : Char) : Bool :=
  c = ' ' || c = '\t' || c = '\n' || c = '\x0d' || c = '\x0b' || c = '\x0c'

/-- Python `s.strip()`: remove leading and trailing whitespace. -/
def pyStrip (s : List Char) : List Char :=
  ((s.dropWhile isPyWS).reverse.dropWhile isPyWS).reverse

/-- The tokenizer capability used by `generate_answer`: `encode` is
`tokenizer(prompt).input_ids`, `decode` is
`tokenizer.decode(ids, skip_special_tokens=False)`, and `eos_token` is the
end-of-sequence marker string. -/
structure Tokenizer where
  encode : List Char → List Nat
  decode : List Nat → List Char
  eos_token : List Char

/-- `max_new_tokens = 400`, fixed inside `generate_answer`. -/
def maxNewTokens : Int := 400

/-- `max_src_len = context_len - max_new_tokens - 8` (line 58). -/
def maxSrcLen (context_len : Int) : Int := context_len - maxNewTokens - 8

/-- The token ids passed to `model.generate`: the full tokenization of the
prompt sliced by `input_ids[-max_src_len:]` (lines 57-59). -/
def modelInput (tok : Tokenizer) (prompt : List Char) (context_len : Int) :
    List Nat :=
  pySliceFrom (tok.encode prompt) (-(maxSrcLen context_len))

/-- Continuation extraction (lines 64-73): with `l_prompt` the character
length of the decoded model input, `pos = output.rfind(stop_str, l_prompt)`;
if found the result is `output[l_prompt:pos]`, otherwise `output[l_prompt:]`. -/
def extractContinuation (output stop_str : List Char) (l_prompt : Nat) :
    List Char :=
  match pyRfind output stop_str l_prompt with
  | some pos => (output.take pos).drop l_prompt
  | none => output.drop l_prompt

/-- `generate_answer` (lines 45-73), with the model's generation capability
passed as the function `generate` from bounded input ids to output ids
(`generation_output[0]`). Sampling parameters configure the opaque model
call and do not affect the data path modelled here. -/
def generate_answer (generate : List Nat → List Nat) (tok : Tokenizer)
    (prompt : List Char) (context_len : Int) : List Char :=
  let input_ids := modelInput tok prompt context_len
  let output := tok.decode (generate input_ids)
  let stop_str := tok.eos_token
  let l_prompt := (tok.decode input_ids).length
  extractContinuation output stop_str l_prompt

/-- Modelled from the spec: the conversation objects come from
`get_conv_template` in `supervised_finetuning.py`, which is not part of the
sources here. Per §4.1 of the design, a template instance carries a pair of
role names and an append-only message list, and `get_prompt` renders the
message list through a pure function of the state (`renderFn`). -/
structure Conversation where
  roles : List Char × List Char
  messages : List (List Char × List Char)
  renderFn : List (List Char × List Char) → List Char

/-- `conv.append_message(role, content)`: add one message at the end. -/
def Conversation.append_message (c : Conversation)
    (role content : List Char) : Conversation :=
  { c with messages := c.messages ++ [(role, content)] }

/-- `conv.get_prompt()`: render the accumulated messages. -/
def Conversation.get_prompt (c : Conversation) : List Char :=
  c.renderFn c.messages

/-- `conv.messages[-1][-1] = content`: overwrite the content of the final
message, keeping its role. (The code never runs this on an empty list.) -/
def replaceLastContent (msgs : List (List Char × List Char))
    (content : List Char) : List (List Char × List Char) :=
  match msgs.getLast? with
  | none => msgs
  | some last => msgs.dropLast ++ [(last.1, content)]

/-- One record collected per batch example (line 174). -/
structure PredRecord where
  Input : List Char
  Output : List Char
deriving DecidableEq

/-- The batch loop (lines 163-174): for each example, a fresh conversation
from the template, the user message and an empty assistant placeholder are
appended, the render is generated from, and `{Input: prompt, Output:
response}` is appended to the results. -/
def batchResults (conv0 : Conversation) (gen : List Char → List Char)
    (examples : List (List Char)) : List PredRecord :=
  examples.foldl
    (fun results ex =>
      let conv := conv0
      let conv := conv.append_message conv.roles.1 ex
      let conv := conv.append_message conv.roles.2 []
      let prompt := conv.get_prompt
      let response := gen prompt
      results ++ [{ Input := prompt, Output := response }])
    []

/-- The rendered prompt the batch loop builds for one example: user message
then empty assistant placeholder on a fresh conversation. -/
def renderedPrompt (conv0 : Conversation) (ex : List Char) : List Char :=
  ((conv0.append_message conv0.roles.1 ex).append_message
    conv0.roles.2 []).get_prompt

/-- One successful interactive cycle (lines 151-159): append the user
input, append an empty assistant placeholder, render, generate, and store
the whitespace-stripped output as the final message's content. -/
def interactiveCycle (gen : List Char → List Char) (conv : Conversation)
    (inp : List Char) : Conversation :=
  let conv := conv.append_message conv.roles.1 inp
  let conv := conv.append_message conv.roles.2 []
  let prompt := conv.get_prompt
  let output := gen prompt
  { conv with messages := replaceLastContent conv.messages (pyStrip output) }

/-- The interactive loop (lines 142-159) driven by a script of reads: each
element is `some s` for an input line and `none` for end-of-input
(`EOFError`, which the code turns into the empty string); an exhausted
script behaves as end-of-input. Returns the final conversation and the
number of generation calls made. -/
def interactiveLoop (gen : List Char → List Char) :
    List (Option (List Char)) → Conversation → Conversation × Nat
  | [], conv => (conv, 0)
  | ev :: rest, conv =>
    let inp := match ev with | none => [] | some s => s
    if inp = [] then (conv, 0)
    else
      let r := interactiveLoop gen rest (interactiveCycle gen conv inp)
      (r.1, r.2 + 1)

/-- Python `f.readlines()`: split the file content into lines, each line
keeping its terminating newline; a final chunk without a newline is kept
when nonempty. -/
def pyReadlinesAux (acc : List Char) : List Char → List (List Char)
  | [] => if acc = [] then [] else [acc.reverse]
  | c :: rest =>
    if c = '\n' then (acc.reverse ++ ['\n']) :: pyReadlinesAux [] rest
    else pyReadlinesAux (c :: acc) rest

/-- Python `f.readlines()` on the whole file content. -/
def pyReadlines (content : List Char) : List (List Char) :=
  pyReadlinesAux [] content

/-- The ex selection (lines 126-130): without a data file, the two
built-in prompts; with one, `[l.strip() for l in f.readlines()]`. -/
def examplesOf (data_file : Option (List Char)) : List (List Char) :=
  match data_file with
  | none => ["介绍下北京".toList, "乙肝和丙肝的区别？".toList]
  | some content => (pyReadlines content).map pyStrip

/-- Python `os.path.dirname` (POSIX): with `i` the last `'/'` position,
the head `p[:i+1]`, stripped of trailing slashes unless it consists only of
slashes; empty when there is no `'/'`. -/
def pyDirname (p : List Char) : List Char :=
  match pyRfind p ['/'] 0 with
  | none => []
  | some idx =>
    let head := p.take (idx + 1)
    if head.all (· = '/') then head
    else (head.reverse.dropWhile (· = '/')).reverse

/-- Modelled from the Python standard library: `os.makedirs(name,
exist_ok=True)` raises `FileNotFoundError` when `name` is the empty string
(the empty path does not exist and cannot be created), and otherwise
creates the directories. -/
def osMakedirs (name : List Char) : Except (List Char) Unit :=
  if name = [] then Except.error "FileNotFoundError".toList else Except.ok ()

/-- The end of the batch branch (lines 163-179): run all generations, then
compute the dirname of the predictions file, call `makedirs` on it, and
only on success open and write the file. `Except.ok` carries the path
written together with the records; `Except.error` means the write never
happened. -/
def batchMain (conv0 : Conversation) (gen : List Char → List Char)
    (examples : List (List Char)) (predictions_file : List Char) :
    List PredRecord × Except (List Char) (List Char × List PredRecord) :=
  let results := batchResults conv0 gen examples
  let write :=
    match osMakedirs (pyDirname predictions_file) with
    | Except.error e => Except.error e
    | Except.ok _ => Except.ok (predictions_file, results)
  (results, write)

/-- A concrete template instance for witnesses: vicuna-style role names and
a render that joins `role: content` segments with single spaces. -/
def testTemplate : Conversation :=
  { roles := ("USER".toList, "ASSISTANT".toList)
    messages := []
    renderFn := fun msgs =>
      msgs.foldl
        (fun acc m => acc ++ m.1 ++ ": ".toList ++ m.2 ++ " ".toList) [] }

/-- The stub generator of the spec's batch test: every call returns
`" stubbed reply"` (note the leading space). -/
def stubGen : List Char → List Char := fun _ => " stubbed reply".toList

/-- A concrete tokenizer for witnesses: one token per character, decoded
back to the same character, with `</s>` as the end-of-sequence marker. -/
def charTok : Tokenizer :=
  { encode := fun s => s.map Char.toNat
    decode := fun ids => ids.map Char.ofNat
    eos_token := "</s>".toList }

/-! ## Helper lemmas -/

theorem rfindAux_some {s sub : List Char} {start n p : Nat}
    (h : rfindAux s sub start n = some p) :
    start ≤ p ∧ occursAt s sub p ∧ p < n := by
  induction n with
  | zero => simp [rfindAux] at h
  | succ n ih =>
    rw [rfindAux] at h
    by_cases hc : start ≤ n ∧ occursAt s sub n
    · rw [if_pos hc] at h
      rw [Option.some_inj] at h
      subst h
      exact ⟨hc.1, hc.2, Nat.lt_succ_self n⟩
    · rw [if_neg hc] at h
      obtain ⟨h1, h2, h3⟩ := ih h
      exact ⟨h1, h2, Nat.lt_succ_of_lt h3⟩

theorem rfindAux_none {s sub : List Char} {start n : Nat}
    (h : rfindAux s sub start n = none) :
    ∀ q, q < n → ¬(start ≤ q ∧ occursAt s sub q) := by
  induction n with
  | zero => intro q hq; exact absurd hq (Nat.not_lt_zero q)
  | succ n ih =>
    rw [rfindAux] at h
    by_cases hc : start ≤ n ∧ occursAt s sub n
    · rw [if_pos hc] at h; cases h
    · rw [if_neg hc] at h
      intro q hq
      rcases Nat.lt_succ_iff_lt_or_eq.mp hq with h' | rfl
      · exact ih h q h'
      · exact hc

theorem rfindAux_max {s sub : List Char} {start n p : Nat}
    (h : rfindAux s sub start n = some p) :
    ∀ q, q < n → start ≤ q → occursAt s sub q → q ≤ p := by
  induction n with
  | zero => intro q hq; exact absurd hq (Nat.not_lt_zero q)
  | succ n ih =>
    rw [rfindAux] at h
    by_cases hc : start ≤ n ∧ occursAt s sub n
    · rw [if_pos hc] at h
      rw [Option.some_inj] at h
      subst h
      intro q hq _ _
      exact Nat.lt_succ_iff.mp hq
    · rw [if_neg hc] at h
      intro q hq hs ho
      rcases Nat.lt_succ_iff_lt_or_eq.mp hq with h' | rfl
      · exact ih h q h' hs ho
      · exact absurd ⟨hs, ho⟩ hc

theorem pyRfind_some {s sub : List Char} {start p : Nat}
    (h : pyRfind s sub start = some p) : start ≤ p ∧ occursAt s sub p :=
  ⟨(rfindAux_some h).1, (rfindAux_some h).2.1⟩

theorem pyRfind_none {s sub : List Char} {start : Nat}
    (h : pyRfind s sub start = none) :
    ∀ q, start ≤ q → ¬ occursAt s sub q := by
  intro q hs ho
  have hb : q < s.length + 1 :=
    Nat.lt_succ_of_le (le_trans (Nat.le_add_right q sub.length) ho.1)
  exact rfindAux_none h q hb ⟨hs, ho⟩

theorem pyRfind_max {s sub : List Char} {start p : Nat}
    (h : pyRfind s sub start = some p) :
    ∀ q, start ≤ q → occursAt s sub q → q ≤ p := by
  intro q hs ho
  have hb : q < s.length + 1 :=
    Nat.lt_succ_of_le (le_trans (Nat.le_add_right q sub.length) ho.1)
  exact rfindAux_max h q hb hs ho

theorem occursAt_take_drop {s sub : List Char} {q a b : Nat}
    (h : occursAt s sub q) (ha : a ≤ q) (hb : q + sub.length ≤ b) :
    occursAt ((s.take b).drop a) sub (q - a) := by
  obtain ⟨hlen, htake⟩ := h
  constructor
  · rw [List.length_drop]
    have h1 : q + sub.length ≤ (s.take b).length := by
      rw [List.length_take]
      exact le_min hb hlen
    omega
  · rw [List.drop_drop]
    have hq : a + (q - a) = q := by omega
    rw [hq, List.drop_take, List.take_take,
      min_eq_left (by omega : sub.length ≤ b - q)]
    exact htake

theorem foldl_append_map {α β : Type} (f : α → β) (l : List α)
    (init : List β) :
    l.foldl (fun r e => r ++ [f e]) init = init ++ l.map f := by
  induction l generalizing init with
  | nil => simp
  | cons x xs ih => simp [ih]

theorem batchResults_eq_map (conv0 : Conversation)
    (gen : List Char → List Char) (examples : List (List Char)) :
    batchResults conv0 gen examples =
      examples.map fun e =>
        PredRecord.mk (renderedPrompt conv0 e) (gen (renderedPrompt conv0 e)) := by
  have h := foldl_append_map
    (fun e => PredRecord.mk (renderedPrompt conv0 e) (gen (renderedPrompt conv0 e)))
    examples []
  rw [List.nil_append] at h
  exact h

theorem replaceLastContent_concat (ms : List (List Char × List Char))
    (r x y : List Char) :
    replaceLastContent (ms ++ [(r, x)]) y = ms ++ [(r, y)] := by
  unfold replaceLastContent
  rw [List.getLast?_concat, List.dropLast_concat]

/-! ## Claim theorems -/

/-- C1: for every prompt and every positive `max_src_len = context_len -
max_new_tokens - 8`, `generate_answer` passes to the model exactly the last
`max_src_len` tokens of the full tokenization when the tokenization is
longer than `max_src_len`, and the full tokenization unchanged when it is
not longer. -/
theorem truncation_bound (tok : Tokenizer) (prompt : List Char)
    (context_len : Int) (hpos : 0 < maxSrcLen context_len) :
    ((maxSrcLen context_len).toNat < (tok.encode prompt).length →
      modelInput tok prompt context_len =
        (tok.encode prompt).drop
          ((tok.encode prompt).length - (maxSrcLen context_len).toNat) ∧
      (modelInput tok prompt context_len).length =
        (maxSrcLen context_len).toNat) ∧
    ((tok.encode prompt).length ≤ (maxSrcLen context_len).toNat →
      modelInput tok prompt context_len = tok.encode prompt) := by
  unfold modelInput pySliceFrom
  rw [if_pos (by omega : -(maxSrcLen context_len) < 0), neg_neg]
  constructor
  · intro h
    refine ⟨rfl, ?_⟩
    rw [List.length_drop]
    omega
  · intro h
    rw [(by omega :
      (tok.encode prompt).length - (maxSrcLen context_len).toNat = 0)]
    exact List.drop_zero _

/-- Witness for C1 at `context_len = 410` (`max_src_len = 2`) with the
character tokenizer: a 3-token prompt is left-truncated to its last 2
tokens, a 1-token prompt passes through unchanged. -/
theorem truncation_bound_witness :
    (modelInput charTok "abc".toList 410 =
        (charTok.encode "abc".toList).drop
          ((charTok.encode "abc".toList).length - (maxSrcLen 410).toNat) ∧
      (modelInput charTok "abc".toList 410).length = (maxSrcLen 410).toNat) ∧
    modelInput charTok "a".toList 410 = charTok.encode "a".toList :=
  ⟨(truncation_bound charTok "abc".toList 410 (by decide)).1 (by decide),
   (truncation_bound charTok "a".toList 410 (by decide)).2 (by decide)⟩

/-- C2: the continuation extracted by `generate_answer` is the decoded
output strictly between `l_prompt` and the position of the end-of-sequence
marker found at or after `l_prompt` (marker excluded) when such a marker
exists, and everything from `l_prompt` to the end when no marker occurs at
or after `l_prompt`. -/
theorem continuation_extraction (output stop_str : List Char)
    (l_prompt : Nat) :
    ((∃ p, l_prompt ≤ p ∧ occursAt output stop_str p) →
      ∃ pos, l_prompt ≤ pos ∧ occursAt output stop_str pos ∧
        extractContinuation output stop_str l_prompt =
          (output.take pos).drop l_prompt) ∧
    ((∀ p, l_prompt ≤ p → ¬ occursAt output stop_str p) →
      extractContinuation output stop_str l_prompt =
        output.drop l_prompt) := by
  constructor
  · rintro ⟨p, hp, ho⟩
    cases hfind : pyRfind output stop_str l_prompt with
    | none => exact absurd ho (pyRfind_none hfind p hp)
    | some pos =>
      obtain ⟨h1, h2⟩ := pyRfind_some hfind
      exact ⟨pos, h1, h2, by unfold extractContinuation; rw [hfind]⟩
  · intro hnone
    cases hfind : pyRfind output stop_str l_prompt with
    | none => unfold extractContinuation; rw [hfind]
    | some pos =>
      obtain ⟨h1, h2⟩ := pyRfind_some hfind
      exact absurd h2 (hnone pos h1)

/-- Witness for C2: decoding `"Hi:yo</s>"` with prompt length 3 extracts up
to the marker; decoding `"Hi:yo"` (no marker) extracts everything after
position 3. -/
theorem continuation_extraction_witness :
    (∃ pos, 3 ≤ pos ∧ occursAt "Hi:yo</s>".toList "</s>".toList pos ∧
      extractContinuation "Hi:yo</s>".toList "</s>".toList 3 =
        ("Hi:yo</s>".toList.take pos).drop 3) ∧
    extractContinuation "Hi:yo".toList "</s>".toList 3 =
      "Hi:yo".toList.drop 3 :=
  ⟨(continuation_extraction "Hi:yo</s>".toList "</s>".toList 3).1
      ⟨5, by decide⟩,
   (continuation_extraction "Hi:yo".toList "</s>".toList 3).2 (by
      intro p hp ho
      have h1 := ho.1
      have e1 : ("</s>".toList).length = 4 := rfl
      have e2 : ("Hi:yo".toList).length = 5 := rfl
      rw [e1, e2] at h1
      omega)⟩

/-- C3 evaluation at the failing configuration: with `context_len = 100`
(`max_new_tokens` is fixed at 400), `max_src_len = -308`; no exception of
any kind is raised — `input_ids[-(-308):]` silently drops the first 308
tokens, here leaving an empty model input — and `generate_answer` runs to
completion. -/
theorem negative_budget_no_guard :
    maxSrcLen 100 = -308 ∧
    modelInput charTok "hello".toList 100 = [] ∧
    generate_answer (fun _ => []) charTok "hello".toList 100 = [] := by
  decide

/-- C9: with `context_len = 408` the budget `max_src_len` is exactly 0, no
error is raised, and the slice `input_ids[-0:]` passes the entire
untruncated tokenization to the model — longer than the stated budget for
any non-empty prompt. -/
theorem zero_budget_passthrough (tok : Tokenizer) (prompt : List Char) :
    modelInput tok prompt 408 = tok.encode prompt ∧
    maxSrcLen 408 = 0 ∧
    (tok.encode prompt ≠ [] →
      (maxSrcLen 408).toNat < (tok.encode prompt).length) := by
  refine ⟨?_, rfl, ?_⟩
  · unfold modelInput pySliceFrom
    rw [if_neg (by decide : ¬ -maxSrcLen 408 < 0)]
    exact List.drop_zero _
  · intro h
    rw [(by decide : (maxSrcLen 408).toNat = 0)]
    exact List.length_pos.mpr h

/-- Witness for C9: the two-token prompt `"hi"` passes through whole at
`context_len = 408`, exceeding the zero budget. -/
theorem zero_budget_passthrough_witness :
    modelInput charTok "hi".toList 408 = charTok.encode "hi".toList ∧
    (maxSrcLen 408).toNat < (charTok.encode "hi".toList).length :=
  ⟨(zero_budget_passthrough charTok "hi".toList).1,
   (zero_budget_passthrough charTok "hi".toList).2.2 (by decide)⟩

/-- Counterexample for C4: with the spec's own stub generator returning
`" stubbed reply"`, the collected `Output` fields keep the leading space —
batch mode stores the continuation without stripping. -/
theorem batch_output_unstripped_cex :
    (batchResults testTemplate stubGen
        ["介绍下北京".toList, "乙肝和丙肝的区别？".toList]).map
      PredRecord.Output =
      [" stubbed reply".toList, " stubbed reply".toList] ∧
    pyStrip " stubbed reply".toList = "stubbed reply".toList ∧
    " stubbed reply".toList ≠ "stubbed reply".toList := by
  decide

/-- C4 as amended: in batch mode the record appended for each example is
`{Input: the rendered prompt, Output: the generated continuation
unmodified}` — no whitespace stripping — and the results hold exactly one
record per example, in order. -/
theorem batch_records (conv0 : Conversation) (gen : List Char → List Char)
    (examples : List (List Char)) :
    batchResults conv0 gen examples =
      (examples.map fun e =>
        PredRecord.mk (renderedPrompt conv0 e)
          (gen (renderedPrompt conv0 e))) ∧
    (batchResults conv0 gen examples).length = examples.length := by
  refine ⟨batchResults_eq_map conv0 gen examples, ?_⟩
  rw [batchResults_eq_map conv0 gen examples, List.length_map]

/-- C5: an empty or end-of-input first read (or an exhausted input script)
ends the interactive session at once — the conversation is untouched and
zero generation calls are made — and an end-of-input reached after any
run of successful turns likewise just stops the loop, leaving the result
of the turns before it. -/
theorem interactive_termination (gen : List Char → List Char)
    (conv : Conversation) :
    interactiveLoop gen [] conv = (conv, 0) ∧
    (∀ rest, interactiveLoop gen (none :: rest) conv = (conv, 0)) ∧
    (∀ rest, interactiveLoop gen (some [] :: rest) conv = (conv, 0)) ∧
    (∀ inputs rest, (∀ i ∈ inputs, i ≠ none ∧ i ≠ some []) →
      interactiveLoop gen (inputs ++ none :: rest) conv =
        interactiveLoop gen inputs conv) := by
  refine ⟨rfl, fun rest => rfl, fun rest => rfl, ?_⟩
  intro inputs
  induction inputs generalizing conv with
  | nil => intro rest _; rfl
  | cons i is ih =>
    intro rest hall
    obtain ⟨hnone, hempty⟩ := hall i (List.mem_cons_self i is)
    cases i with
    | none => exact absurd rfl hnone
    | some s =>
      have hs : s ≠ [] := fun h => hempty (by rw [h])
      rw [List.cons_append]
      show (if s = [] then _ else _) = (if s = [] then _ else _)
      rw [if_neg hs, if_neg hs]
      rw [ih (interactiveCycle gen conv s) rest
        (fun j hj => hall j (List.mem_cons_of_mem _ hj))]

/-- Witness for C5: an all-successful script followed by end-of-input
behaves exactly like the script alone, and the empty first read ends the
session with zero generations. -/
theorem interactive_termination_witness :
    interactiveLoop stubGen [] testTemplate = (testTemplate, 0) ∧
    interactiveLoop stubGen [some "hi".toList, none, some "x".toList]
        testTemplate =
      interactiveLoop stubGen [some "hi".toList] testTemplate :=
  ⟨(interactive_termination stubGen testTemplate).1,
   (interactive_termination stubGen testTemplate).2.2.2
     [some "hi".toList] [some "x".toList] (by decide)⟩

/-- C6: after a successful interactive cycle, the final (assistant
placeholder) message holds exactly the whitespace-stripped generated
continuation, and the loop proceeds with that conversation, counting one
more generation call. -/
theorem interactive_cycle_stores_stripped (gen : List Char → List Char)
    (conv : Conversation) (inp : List Char)
    (rest : List (Option (List Char))) (h : inp ≠ []) :
    (interactiveCycle gen conv inp).messages =
      ((conv.append_message conv.roles.1 inp).append_message
          conv.roles.2 []).messages.dropLast ++
        [(conv.roles.2,
          pyStrip (gen ((conv.append_message conv.roles.1 inp).append_message
            conv.roles.2 []).get_prompt))] ∧
    interactiveLoop gen (some inp :: rest) conv =
      ((interactiveLoop gen rest (interactiveCycle gen conv inp)).1,
       (interactiveLoop gen rest (interactiveCycle gen conv inp)).2 + 1) := by
  constructor
  · show replaceLastContent
        ((conv.messages ++ [(conv.roles.1, inp)]) ++ [(conv.roles.2, [])])
        (pyStrip (gen _)) = _
    rw [replaceLastContent_concat]
    show _ = ((conv.messages ++ [(conv.roles.1, inp)]) ++
        [(conv.roles.2, [])]).dropLast ++ _
    rw [List.dropLast_concat]
    rfl
  · show (if inp = [] then _ else _) = _
    rw [if_neg h]

/-- Witness for C6 on a concrete cycle: input `"hi"` with the stub
generator stores `pyStrip " stubbed reply"` in the assistant slot. -/
theorem interactive_cycle_stores_stripped_witness :
    (interactiveCycle stubGen testTemplate "hi".toList).messages =
      ((testTemplate.append_message testTemplate.roles.1
          "hi".toList).append_message
          testTemplate.roles.2 []).messages.dropLast ++
        [(testTemplate.roles.2,
          pyStrip (stubGen ((testTemplate.append_message testTemplate.roles.1
            "hi".toList).append_message
            testTemplate.roles.2 []).get_prompt))] ∧
    interactiveLoop stubGen [some "hi".toList] testTemplate =
      ((interactiveLoop stubGen []
          (interactiveCycle stubGen testTemplate "hi".toList)).1,
       (interactiveLoop stubGen []
          (interactiveCycle stubGen testTemplate "hi".toList)).2 + 1) :=
  interactive_cycle_stores_stripped stubGen testTemplate "hi".toList []
    (by decide)

/-- Counterexample for C7: the file content `"a\n\nb"` has two non-empty
lines but yields three examples — the blank line is kept as the empty
example, not filtered out. -/
theorem examples_blank_line_cex :
    examplesOf (some "a\n\nb".toList) = ["a".toList, [], "b".toList] ∧
    (examplesOf (some "a\n\nb".toList)).length = 3 ∧
    ((pyReadlines "a\n\nb".toList).filter
        (fun l => !(pyStrip l).isEmpty)).length = 2 ∧
    [] ∈ examplesOf (some "a\n\nb".toList) := by
  decide

/-- C7 as amended: with a data file the example sequence has one example
per line of the file — each line stripped of surrounding whitespace, blank
lines included as empty examples — and without a data file it is exactly
the two built-in prompts. -/
theorem examples_per_line (c : List Char) :
    (examplesOf (some c)).length = (pyReadlines c).length ∧
    (∀ i (h1 : i < (examplesOf (some c)).length)
        (h2 : i < (pyReadlines c).length),
      (examplesOf (some c)).get ⟨i, h1⟩ =
        pyStrip ((pyReadlines c).get ⟨i, h2⟩)) ∧
    examplesOf none = ["介绍下北京".toList, "乙肝和丙肝的区别？".toList] := by
  refine ⟨by simp [examplesOf], ?_, rfl⟩
  intro i h1 h2
  simp [examplesOf]

/-- Witness for C7 (amended) at the file `"a\n\nb"`, index 1: the blank
line becomes the empty example. -/
theorem examples_per_line_witness :
    (examplesOf (some "a\n\nb".toList)).length =
      (pyReadlines "a\n\nb".toList).length ∧
    (examplesOf (some "a\n\nb".toList)).get ⟨1, by decide⟩ =
      pyStrip ((pyReadlines "a\n\nb".toList).get ⟨1, by decide⟩) :=
  ⟨(examples_per_line "a\n\nb".toList).1,
   (examples_per_line "a\n\nb".toList).2.1 1 (by decide) (by decide)⟩

/-- Counterexample for C8: with decoded output `"aaa"`, marker `"aa"` and
`l_prompt = 0`, the marker occurs at positions 0 and 1 (at or after
`l_prompt`), the returned continuation is `"a"` — up to the last
occurrence — yet the earlier occurrence is not a substring of it: the two
occurrences overlap, so "every earlier marker occurrence remains a literal
substring" fails as a universal statement. -/
theorem last_marker_overlap_cex :
    occursAt "aaa".toList "aa".toList 0 ∧
    occursAt "aaa".toList "aa".toList 1 ∧
    extractContinuation "aaa".toList "aa".toList 0 = "a".toList ∧
    containsSubB (extractContinuation "aaa".toList "aa".toList 0)
      "aa".toList = false := by
  decide

/-- C8 as amended: when the search finds a marker, `generate_answer`
returns the text from `l_prompt` up to the LAST occurrence of the marker
at or after `l_prompt`, and every earlier occurrence that ends at or
before that last occurrence's start (in particular every earlier
occurrence when occurrences cannot overlap) remains a literal substring of
the returned continuation. -/
theorem last_marker_extraction (output stop_str : List Char)
    (l_prompt pos : Nat)
    (h : pyRfind output stop_str l_prompt = some pos) :
    extractContinuation output stop_str l_prompt =
      (output.take pos).drop l_prompt ∧
    (∀ q, l_prompt ≤ q → occursAt output stop_str q → q ≤ pos) ∧
    (∀ q, l_prompt ≤ q → occursAt output stop_str q →
      q + stop_str.length ≤ pos →
      occursAt (extractContinuation output stop_str l_prompt) stop_str
        (q - l_prompt)) := by
  have hext : extractContinuation output stop_str l_prompt =
      (output.take pos).drop l_prompt := by
    unfold extractContinuation
    rw [h]
  refine ⟨hext, pyRfind_max h, ?_⟩
  intro q hq hoq hqe
  rw [hext]
  exact occursAt_take_drop hoq hq hqe

/-- Witness for C8 (amended): in `"ab</s>cd</s>"` from `l_prompt = 0` the
search finds the last marker at 8, the continuation is `"ab</s>cd"`, and
the earlier marker occurrence at 2 survives inside it. -/
theorem last_marker_extraction_witness :
    extractContinuation "ab</s>cd</s>".toList "</s>".toList 0 =
      ("ab</s>cd</s>".toList.take 8).drop 0 ∧
    occursAt (extractContinuation "ab</s>cd</s>".toList "</s>".toList 0)
      "</s>".toList 2 :=
  ⟨(last_marker_extraction "ab</s>cd</s>".toList "</s>".toList 0 8
      (by decide)).1,
   (last_marker_extraction "ab</s>cd</s>".toList "</s>".toList 0 8
      (by decide)).2.2 2 (by decide) (by decide) (by decide)⟩

/-- C10: in batch mode, a predictions path with no directory component
makes `os.path.dirname` return the empty string; all generations still
run — the results list holds one record per example — but
`os.makedirs("")` fails before the file is opened, so the write never
happens. -/
theorem bare_filename_write_error (conv0 : Conversation)
    (gen : List Char → List Char) (examples : List (List Char))
    (pf : List Char) (h : pyDirname pf = []) :
    batchMain conv0 gen examples pf =
      (batchResults conv0 gen examples,
        Except.error "FileNotFoundError".toList) ∧
    (batchMain conv0 gen examples pf).1.length = examples.length := by
  constructor
  · unfold batchMain osMakedirs
    rw [h]
    rfl
  · show (batchResults conv0 gen examples).length = examples.length
    rw [batchResults_eq_map conv0 gen examples, List.length_map]

/-- Witness for C10 at `predictions_file = "predictions.json"`: the
dirname is empty, so the batch run ends in the directory-creation error
with the records fully computed. -/
theorem bare_filename_write_error_witness :
    pyDirname "predictions.json".toList = [] ∧
    batchMain testTemplate stubGen ["a".toList] "predictions.json".toList =
      (batchResults testTemplate stubGen ["a".toList],
        Except.error "FileNotFoundError".toList) :=
  ⟨by decide,
   (bare_filename_write_error testTemplate stubGen ["a".toList]
      "predictions.json".toList (by decide)).1⟩
